import Mathlib

/-!
Verification of the command-dispatch wrapper in `src/tools/main.cpp`.

The program is a three-line wrapper: `run_scraper(url, prompt)` builds the
shell command line
  `python tools/scrape_tool.py "<url>" "<prompt>"`
by plain string concatenation, passes it to `std::system`, and prints one
fixed diagnostic line to `std::cerr` when the returned status is non-zero.
`main` calls it once with two hardcoded strings and returns 0.

Embedding choices:
* The host environment's shell facility (`std::system`) is a parameter
  `system : String → Int` mapping the command line to the observed status.
* Observable effects (shell invocations, stdout lines, stderr lines) are
  threaded through an explicit `World` record, appended in program order.
* The two `const std::string&` parameters are returned by `run_scraper`
  as the final values of the caller's strings: the body contains no write
  to either, so the embedding returns them unchanged.
-/

/-- Character code 0x22, the double-quote character interpolated around
both arguments on line 11 of `src/tools/main.cpp`. -/
def dquote : Char := '\x22'

/-- Observable state of the surrounding environment: the shell commands
issued so far (in order), and the lines written to the standard output and
standard error streams. -/
structure World where
  calls : List String := []
  stdoutLines : List String := []
  stderrLines : List String := []
deriving DecidableEq

/-- Fixed invocation path of the external tool named inside the command
string literal on line 11 of `src/tools/main.cpp`. -/
def toolInvocationPath : String := "python tools/scrape_tool.py"

/-- Fixed diagnostic printed to `std::cerr` on line 14 of
`src/tools/main.cpp` when `std::system` returns non-zero. -/
def scriptFailedMsg : String := "Error: The Python scraping script failed to run."

/-- Command line built on line 11 of `src/tools/main.cpp`:
`"python tools/scrape_tool.py \"" + url + "\" \"" + prompt + "\""`,
transcribed with the same left-associated concatenations. -/
def commandOf (url prompt : String) : String :=
  "python tools/scrape_tool.py \"" ++ url ++ "\" \"" ++ prompt ++ "\""

/-- Lines 10-16 of `src/tools/main.cpp`: build the command, run it through
the shell facility, and write the fixed diagnostic to the error stream if
the status is non-zero.  Returns the final values of the two by-reference
string parameters (never written by the body) together with the updated
world. -/
def run_scraper (url prompt : String) (system : String → Int) (w : World) :
    (String × String) × World :=
  let command := commandOf url prompt
  let result := system command
  ((url, prompt),
   { w with
     calls := w.calls ++ [command]
     stderrLines := w.stderrLines ++ if result ≠ 0 then [scriptFailedMsg] else [] })

/-- Lines 18-24 of `src/tools/main.cpp`: call `run_scraper` once on the two
hardcoded example strings and return 0.  The C++ `main` reads no
command-line arguments and no environment variables, so the embedding takes
none: only the shell facility and the initial world. -/
def main' (system : String → Int) (w : World) : Int × World :=
  let target_url : String := "https://example.com"
  let extraction_prompt : String := "Extract all the product names and their prices."
  let r := run_scraper target_url extraction_prompt system w
  (0, r.2)

/-- A value wrapped in literal double quotes, as the spec describes each
argument of the constructed command line. -/
def quoted (s : String) : String := "\"" ++ s ++ "\""

/-- Shape the spec ascribes to a well-formed invocation: the tool path
followed by exactly two quote-delimited arguments, neither argument
containing a double-quote character. -/
def isTwoQuotedArgInvocation (s : String) : Prop :=
  ∃ a b : String, dquote ∉ a.data ∧ dquote ∉ b.data ∧
    s = toolInvocationPath ++ " " ++ quoted a ++ " " ++ quoted b

/-- Number of double-quote characters occurring in a string. -/
def quoteCount (s : String) : Nat := s.data.count dquote

theorem data_append_eq (s t : String) : (s ++ t).data = s.data ++ t.data := rfl

theorem quoteCount_append (s t : String) :
    quoteCount (s ++ t) = quoteCount s + quoteCount t := by
  simp [quoteCount, data_append_eq, List.count_append]

theorem quoteCount_eq_zero (s : String) (h : dquote ∉ s.data) :
    quoteCount s = 0 := by
  simp [quoteCount, List.count_eq_zero]
  exact h

theorem quoteCount_quoted (s : String) (h : dquote ∉ s.data) :
    quoteCount (quoted s) = 2 := by
  have h1 : quoteCount "\"" = 1 := rfl
  simp [quoted, quoteCount_append, quoteCount_eq_zero s h, h1]

/-- C1: for every pair of input strings containing no double-quote
character, the constructed command line is exactly the tool invocation
path, a space, the quoted target, a space, and the quoted directive, with
both values appearing verbatim in that order. -/
theorem commandOf_wellformed_quoting (url prompt : String)
    (_hu : dquote ∉ url.data) (_hp : dquote ∉ prompt.data) :
    commandOf url prompt =
      toolInvocationPath ++ " " ++ quoted url ++ " " ++ quoted prompt := by
  have e1 : ("python tools/scrape_tool.py \"" : String) =
      "python tools/scrape_tool.py" ++ " " ++ "\"" := rfl
  have e2 : ("\" \"" : String) = "\"" ++ " " ++ "\"" := rfl
  simp only [commandOf, toolInvocationPath, quoted]
  rw [e1, e2]
  simp only [String.append_assoc]

theorem commandOf_wellformed_quoting_witness :
    dquote ∉ "https://example.com".data ∧
    dquote ∉ "list prices".data ∧
    commandOf "https://example.com" "list prices" =
      toolInvocationPath ++ " " ++ quoted "https://example.com" ++ " " ++
        quoted "list prices" :=
  ⟨by decide, by decide,
    commandOf_wellformed_quoting "https://example.com" "list prices"
      (by decide) (by decide)⟩

/-- C2: when the shell facility reports a non-zero status for the issued
command, run_scraper appends exactly one line to the error stream, and it
is the same fixed text whatever the non-zero status is. -/
theorem run_scraper_nonzero_status_one_fixed_line (url prompt : String)
    (system : String → Int) (w : World)
    (h : system (commandOf url prompt) ≠ 0) :
    ((run_scraper url prompt system w).2).stderrLines =
      w.stderrLines ++ [scriptFailedMsg] := by
  simp [run_scraper, h]

theorem run_scraper_nonzero_status_one_fixed_line_witness :
    ((fun _ : String => (1 : Int)) (commandOf "u" "p") ≠ 0) ∧
    ((run_scraper "u" "p" (fun _ : String => (1 : Int)) {}).2).stderrLines =
      ({} : World).stderrLines ++ [scriptFailedMsg] :=
  ⟨by decide,
    run_scraper_nonzero_status_one_fixed_line "u" "p"
      (fun _ : String => (1 : Int)) {} (by decide)⟩

/-- C3: when the shell facility reports status zero for the issued command,
run_scraper changes nothing about the world except recording the single
tool invocation: no error-stream output, no stdout output, and the two
input strings come back unchanged. -/
theorem run_scraper_zero_status_silent (url prompt : String)
    (system : String → Int) (w : World)
    (h : system (commandOf url prompt) = 0) :
    run_scraper url prompt system w =
      ((url, prompt), { w with calls := w.calls ++ [commandOf url prompt] }) := by
  simp [run_scraper, h]

theorem run_scraper_zero_status_silent_witness :
    ((fun _ : String => (0 : Int)) (commandOf "u" "p") = 0) ∧
    run_scraper "u" "p" (fun _ : String => (0 : Int)) {} =
      (("u", "p"),
        { ({} : World) with calls := ({} : World).calls ++ [commandOf "u" "p"] }) :=
  ⟨by decide,
    run_scraper_zero_status_silent "u" "p" (fun _ : String => (0 : Int)) {}
      (by decide)⟩

/-- C4: whatever status the shell facility reports, the program's own exit
code returned by the entry point is 0; run_scraper is modelled as total,
so it returns to its caller without raising anything. -/
theorem main_exit_code_always_zero (system : String → Int) (w : World) :
    (main' system w).1 = 0 := rfl

/-- C5: for the two values hardcoded in the entry point, the constructed
command line is the tool path followed by both values each wrapped in
double quotes, separated by spaces, i.e. the literal
`python tools/scrape_tool.py "https://example.com" "Extract all the product names and their prices."`. -/
theorem main_concrete_command (system : String → Int) (w : World) :
    (main' system w).2.calls = w.calls ++
      ["python tools/scrape_tool.py \"https://example.com\" \"Extract all the product names and their prices.\""] ∧
    commandOf "https://example.com" "Extract all the product names and their prices." =
      toolInvocationPath ++ " " ++ quoted "https://example.com" ++ " " ++
        quoted "Extract all the product names and their prices." :=
  ⟨rfl, rfl⟩

/-- C6: one run of the program records exactly one shell invocation, the
fixed command built from the hardcoded example URL and prompt; the entry
point takes no command-line arguments and reads no environment, and the
recorded invocation does not depend on the shell facility's answer. -/
theorem main_single_invocation (system : String → Int) (w : World) :
    (main' system w).2.calls = w.calls ++
      [commandOf "https://example.com"
        "Extract all the product names and their prices."] ∧
    ((main' system w).2.calls).length = w.calls.length + 1 := by
  refine ⟨rfl, ?_⟩
  simp [main', run_scraper]

/-- C7: every input pair is interpolated verbatim and unmodified into the
command string (no validation or escaping), and, as a consequence, there is
a directive containing a double-quote character whose constructed command
line is not the tool path followed by exactly two quote-delimited
arguments. -/
theorem run_scraper_no_escaping :
    (∀ url prompt : String, commandOf url prompt =
      "python tools/scrape_tool.py \"" ++ url ++ "\" \"" ++ prompt ++ "\"") ∧
    ∃ prompt : String, dquote ∈ prompt.data ∧
      ¬ isTwoQuotedArgInvocation (commandOf "https://example.com" prompt) := by
  refine ⟨fun url prompt => rfl, "x\"y", by decide, ?_⟩
  rintro ⟨a, b, ha, hb, heq⟩
  have hc := congrArg quoteCount heq
  rw [show quoteCount (commandOf "https://example.com" "x\"y") = 5 by decide] at hc
  rw [quoteCount_append, quoteCount_append, quoteCount_append, quoteCount_append,
    quoteCount_quoted a ha, quoteCount_quoted b hb,
    show quoteCount toolInvocationPath = 0 by decide,
    show quoteCount " " = 0 by decide] at hc
  omega

/-- C8: run_scraper leaves both of its input strings unchanged and, apart
from recording the single invocation, modifies nothing but the error
stream: the final values of the two by-reference parameters equal the
values at the call and the stdout lines are untouched. -/
theorem run_scraper_inputs_unchanged (url prompt : String)
    (system : String → Int) (w : World) :
    (run_scraper url prompt system w).1 = (url, prompt) ∧
    ((run_scraper url prompt system w).2).stdoutLines = w.stdoutLines ∧
    ((run_scraper url prompt system w).2).calls = w.calls ++ [commandOf url prompt] :=
  ⟨rfl, rfl, rfl⟩

/-- C9: run_scraper is deterministic in its inputs and the observed status:
two runs on the same pair issue the same command whatever the shell
facility answers, and when the facility additionally reports the same
status for that command, the two runs are equal in every observable. -/
theorem run_scraper_deterministic (url prompt : String)
    (s1 s2 : String → Int) (w : World) :
    ((run_scraper url prompt s1 w).2).calls = ((run_scraper url prompt s2 w).2).calls ∧
    (s1 (commandOf url prompt) = s2 (commandOf url prompt) →
      run_scraper url prompt s1 w = run_scraper url prompt s2 w) := by
  refine ⟨rfl, fun h => ?_⟩
  simp only [run_scraper]
  rw [h]

theorem run_scraper_deterministic_witness :
    ((fun _ : String => (7 : Int)) (commandOf "u" "p") =
      (fun _ : String => (3 + 4 : Int)) (commandOf "u" "p")) ∧
    run_scraper "u" "p" (fun _ : String => (7 : Int)) {} =
      run_scraper "u" "p" (fun _ : String => (3 + 4 : Int)) {} :=
  ⟨by decide,
    (run_scraper_deterministic "u" "p" (fun _ : String => (7 : Int))
      (fun _ : String => (3 + 4 : Int)) {}).2 (by decide)⟩

/-- C10: the program never writes to standard output, and the only thing it
can ever add to the error stream is the single fixed diagnostic line. -/
theorem main_no_stdout (system : String → Int) (w : World) :
    (main' system w).2.stdoutLines = w.stdoutLines ∧
    ((main' system w).2.stderrLines = w.stderrLines ∨
      (main' system w).2.stderrLines = w.stderrLines ++ [scriptFailedMsg]) := by
  refine ⟨rfl, ?_⟩
  by_cases h : system (commandOf "https://example.com"
      "Extract all the product names and their prices.") = 0
  · left
    simp [main', run_scraper, h]
  · right
    simp [main', run_scraper, h]
